import Mathlib

/-!
Verification of the live-timing and segment-mapping engine of
dash-live-source-simulator (src/dashlivesim/dashlib/dash_proxy.py).

The Python source is shallowly embedded below.  Wall-clock instants and all
durations are modelled as integers (`Int`); Python `divmod`, `//` and `%` on
integers are floor-based, which corresponds to `Int.fdiv` / `Int.fmod`
(and to `Int.emod` for a positive modulus).  Fallible Python code (division
by zero, list indexing, `int(...)` parsing) is modelled with
`Except PyExc`; the dictionaries returned by `error_response` become the
`Response.errorResponse` constructor.  External collaborators (the MP4 box
rewriters `InitLiveFilter` / `MediaSegmentFilter`, the muxer, the XML
serializer, `ConfigProcessor`) are out of scope: the byte-rewriting calls
are modelled by the argument descriptors the source hands to them.
-/

namespace DashProxy

/-- Python runtime exceptions that the embedded code can raise. -/
inductive PyExc where
  | zeroDivision
  | indexError
  | valueError
  deriving Repr, DecidableEq

/-- Python divmod on integers: floor division with floor remainder;
raises ZeroDivisionError on a zero divisor. -/
def pydivmod (a b : Int) : Except PyExc (Int × Int) :=
  if b = 0 then .error .zeroDivision else .ok (Int.fdiv a b, Int.fmod a b)

/-- Python integer floor division (used by py2 `/` on ints and by
`int((time - last) / seg_dur)` on a nonnegative exact ratio). -/
def pydiv (a b : Int) : Except PyExc Int :=
  if b = 0 then .error .zeroDivision else .ok (Int.fdiv a b)

/-- Ceiling of the exact ratio a/b for b > 0, written via floor division. -/
def ceilD (a b : Int) : Int := -(Int.fdiv (-a) b)

/-- Models `int(ceil(60.0 / total))` style expressions: exact for the
integer inputs the claims quantify over. -/
def pyCeilDiv (a b : Int) : Except PyExc Int :=
  if b = 0 then .error .zeroDivision else .ok (ceilD a b)

/-- Python `lst[0]`: IndexError on an empty list. -/
def exceptHead {α : Type} (l : List α) : Except PyExc α :=
  match l with
  | [] => .error .indexError
  | x :: _ => .ok x

/-- Python `lst[-1]`: IndexError on an empty list. -/
def exceptLast {α : Type} (l : List α) : Except PyExc α :=
  match l.getLast? with
  | none => .error .indexError
  | some x => .ok x

/-- Python `lst[n]` for a nonnegative index. -/
def exceptNth {α : Type} (l : List α) (n : Nat) : Except PyExc α :=
  match l.get? n with
  | none => .error .indexError
  | some x => .ok x

/-- Python `s[0]` on a string: IndexError when empty. -/
def pyFirstChar (s : String) : Except PyExc Char :=
  match s.toList with
  | [] => .error .indexError
  | c :: _ => .ok c

/-- Digit-list parser: accumulates the decimal value, none on a
non-digit character. -/
def parseDigits : Nat → List Char → Option Nat
  | acc, [] => some acc
  | acc, c :: cs =>
    if '0' ≤ c ∧ c ≤ '9' then parseDigits (acc * 10 + (c.toNat - '0'.toNat)) cs
    else none

/-- Integer literal parser on a character list: an optional minus sign
followed by at least one decimal digit. -/
def pyIntChars : List Char → Option Int
  | [] => none
  | '-' :: cs =>
    match cs with
    | [] => none
    | _ => (parseDigits 0 cs).map (fun m => -(m : Int))
  | cs => (parseDigits 0 cs).map (fun m => (m : Int))

/-- Python `int(s)` on the decimal literals the embedded code meets:
ValueError when the string is not an integer literal. -/
def pyInt (s : String) : Except PyExc Int :=
  match pyIntChars s.toList with
  | none => .error .valueError
  | some n => .ok n

/-- Python `s[1:]` on a string. -/
def pyDrop1 (s : String) : String := String.mk s.toList.tail

/-- Helper for `splitChar`: split a character list at a separator,
keeping empty chunks (Python str.split with an explicit separator). -/
def splitCharAux (sep : Char) : List Char → List Char → List (List Char)
  | acc, [] => [acc.reverse]
  | acc, c :: cs =>
    if c = sep then acc.reverse :: splitCharAux sep [] cs
    else splitCharAux sep (c :: acc) cs

/-- Python `s.split(sep)` for a one-character separator. -/
def splitChar (sep : Char) (s : String) : List String :=
  (splitCharAux sep [] s.toList).map (fun cs => String.mk cs)

/-- Python `"/".join(parts)`. -/
def joinSlash : List String → String
  | [] => ""
  | [s] => s
  | s :: rest => s ++ "/" ++ joinSlash rest

/-- Formats an integer count of seconds the way the source formats the
float `"%.1f"` (the model keeps the wall clock at whole seconds). -/
def fmt1f (i : Int) : String := toString i ++ ".0"

/-- Helper for `splitext`: splits a character list at its last dot. -/
def splitextAux : List Char → Option (List Char × List Char)
  | [] => none
  | c :: cs =>
    match splitextAux cs with
    | some (st, ex) => some (c :: st, ex)
    | none => if c = '.' then some ([], c :: cs) else none

/-- Models `os.path.splitext`: stem and extension at the last dot. -/
def splitext (s : String) : String × String :=
  match splitextAux s.toList with
  | some (st, ex) => (String.mk st, String.mk ex)
  | none => (s, "")

/-- Constant EXTRA_TIME_AFTER_END_IN_S = 60 from the source. -/
def EXTRA_TIME_AFTER_END_IN_S : Int := 60

/-- One VoD asset of the catalog (the fields of `cfg.vod_infos[i]` and of
its `media_data['video']` entry that the embedded code reads). -/
structure VodInfo where
  seg_duration : Int
  wrap_seconds : Int
  first_segment_in_loop : Int
  video_total_duration : Int
  video_timescale : Int
  deriving Repr, DecidableEq

/-- One representation (an entry of `cfg.reps`). -/
structure Rep where
  id : String
  timescale : Int
  content_type : String
  deriving Repr, DecidableEq

/-- The resolved configuration object produced by the external
ConfigProcessor, restricted to the fields the embedded code reads.
String-only fields that are merely copied into the manifest text
(timeshift depth, publish time, ...) are handled by external serializers
and are not modelled. -/
structure Config where
  ext : String
  content_name : String
  rel_path : String
  filenames : List String
  vod_infos : List VodInfo
  availability_start_time_in_s : Int
  availability_time_offset_in_s : Int
  availability_end_time : Option Int
  init_seg_avail_offset : Int
  start_nr : Int
  last_segment_numbers : List Int
  multi_url : List String
  initial_durations : List Int
  loop_duration : Int
  start_from_ast : Int
  reps : List Rep
  repId : String
  scte35_per_minute : Int
  deriving Repr, DecidableEq

/-- The argument tuple handed to the external MediaSegmentFilter by
`filter_media_segment` (the byte-rewrite call descriptor).  `vod_nr` is
the local segment number, also embedded in `media_seg_file`. -/
structure RewriteCall where
  media_seg_file : String
  vod_nr : Int
  seg_nr : Int
  seg_duration : Int
  offset_at_loop_start : Int
  lmsg : Bool
  timescale : Int
  scte35_per_minute : Int
  rel_path : String
  is_ttml : Bool
  deriving Repr, DecidableEq

/-- One entry of `base_data` built in `generate_dynamic_mpd`. -/
structure BaseData where
  timescale : Int
  start : Int
  duration : Int
  segDuration : Int
  startNumber : Int
  deriving Repr, DecidableEq

/-- One entry of the `period_data` array built by `generate_period_data`. -/
structure PeriodData where
  id : String
  periodDuration : String
  start : String
  startNumber : String
  duration : Int
  presentationTimeOffset : String
  start_s : Int
  deriving Repr, DecidableEq

/-- A media-segment response body: one filtered segment or two muxed ones. -/
inductive SegContent where
  | single (c : RewriteCall)
  | muxed (c1 c2 : RewriteCall)
  deriving Repr, DecidableEq

/-- An init-segment response body: one file path or two muxed paths. -/
inductive InitContent where
  | single (path : String)
  | muxed (path1 path2 : String)
  deriving Repr, DecidableEq

/-- The value returned by `parse_url`: either the error dictionary built
by `error_response` (ok = False plus a message), or a payload. -/
inductive Response where
  | errorResponse (msg : String)
  | media (s : SegContent)
  | initSeg (d : InitContent)
  | mpd (periods : List PeriodData)
  | unknownExt (msg : String)
  deriving Repr, DecidableEq

/-- Sum of the wrap durations of a catalog (the `total` of sort_by_period). -/
def sumWraps (l : List VodInfo) : Int := (l.map VodInfo.wrap_seconds).sum

/-- Line 325: `seg_start_nr = cfg.start_nr == -1 and 1 or cfg.start_nr`. -/
def effStart (cfg : Config) : Int := if cfg.start_nr = -1 then 1 else cfg.start_nr

/-- The rotation test of the loop in sort_by_period (lines 222-231): walk
the catalog accumulating wrap durations into `prog` and report whether some
asset satisfies `time > prog + seg_duration`; the loop body always rotates
the first asset and breaks, so only the existence of such an index matters. -/
def shouldRotate (time : Int) : Int → List VodInfo → Bool
  | _, [] => false
  | prog, v :: rest =>
    if time > prog + v.wrap_seconds + v.seg_duration then true
    else shouldRotate time (prog + v.wrap_seconds) rest

/-- Lines 222-231 of sort_by_period: the forward rotation step.  On
rotation the first asset and filename move to the back and the first wrap
duration is added to start_from_ast. -/
def sort_fwd (cfg : Config) (time : Int) : Except PyExc Config := do
  if shouldRotate time 0 cfg.vod_infos then do
    let v ← exceptHead cfg.vod_infos
    let f ← exceptHead cfg.filenames
    return { cfg with vod_infos := cfg.vod_infos.tail ++ [v],
                      filenames := cfg.filenames.tail ++ [f],
                      start_from_ast := cfg.start_from_ast + v.wrap_seconds }
  else return cfg

/-- Lines 232-237 of sort_by_period: when `now - ast` exceeds the first
asset's wrap duration, the LAST asset and filename are prepended (the
source copies them to the front without removing them from the back) and
the duplicated wrap duration is subtracted from start_from_ast. -/
def sort_dup (cfg : Config) (now : Int) : Except PyExc Config := do
  let v1 ← exceptHead cfg.vod_infos
  if now - cfg.availability_start_time_in_s > v1.wrap_seconds then do
    let lastV ← exceptLast cfg.vod_infos
    let lastF ← exceptLast cfg.filenames
    return { cfg with vod_infos := lastV :: cfg.vod_infos,
                      filenames := lastF :: cfg.filenames,
                      start_from_ast := cfg.start_from_ast - lastV.wrap_seconds }
  else return cfg

/-- Lines 214-238: DashProvider.sort_by_period.  `divmod(diff, total)`
raises ZeroDivisionError when the wrap durations sum to zero. -/
def sort_by_period (cfg : Config) (now : Int) : Except PyExc Config := do
  let total := sumWraps cfg.vod_infos
  let (loops, tm) ← pydivmod (now - cfg.availability_start_time_in_s) total
  let cfg1 ← sort_fwd cfg tm
  let cfg2 ← sort_dup cfg1 now
  return { cfg2 with start_from_ast := cfg2.start_from_ast + loops * total }

/-- Error message of line 327. -/
def tooEarlySegMsg (seg_nr first : Int) : String :=
  "Request for segment " ++ toString seg_nr ++ " before first " ++ toString first

/-- Error message of line 331. -/
def beyondLastMsg (seg_nr very_last : Int) : String :=
  "Request for segment " ++ toString seg_nr ++ " beyond last (" ++ toString very_last ++ ")"

/-- Error message of lines 184-185. -/
def tooEarlyFirstAstMsg (fn : String) (diff : Int) : String :=
  "Request " ++ fn ++ " before first seg AST. " ++ fmt1f diff ++ "s too early."

/-- Error message of line 189. -/
def tooLateMsg (fn : String) (diff : Int) : String :=
  "Request for " ++ fn ++ " after AET. " ++ fmt1f diff ++ "s too late"

/-- Error message of lines 202 and 207. -/
def serverDownMsg (now : Int) : String := "BaseURL server down at " ++ toString now

/-- Error message of line 173. -/
def tooEarlyInitMsg (fn : String) (diff : Int) : String :=
  "Request for " ++ fn ++ " was " ++ fmt1f diff ++ "s too early"

/-- Error message of line 295. -/
def badRepsMsg (n : Nat) : String := "Bad nr of representations: " ++ toString n

/-- Lines 306-314: timescale of the representation whose id is cfg.repId,
none if there is no such representation. -/
def get_timescale (cfg : Config) : Option Int :=
  (cfg.reps.find? (fun r => r.id = cfg.repId)).map Rep.timescale

/-- Round half to even of the exact ratio num/den (den > 0), matching the
Python round() applied to an integer time marker divided by
seg_duration * timescale. -/
def pyRoundDiv (num den : Int) : Except PyExc Int :=
  if den = 0 then .error .zeroDivision
  else
    let f := Int.fdiv num den
    let r := num - f * den
    if 2 * r < den then .ok f
    else if 2 * r > den then .ok (f + 1)
    else if f % 2 = 0 then .ok f else .ok (f + 1)

/-- Lines 377-387: filter_media_segment.  The external MediaSegmentFilter
call is modelled by the descriptor of the arguments handed to it. -/
def filter_media_segment (content_dir : String) (cfg : Config) (rep : Rep)
    (rel_path : String) (vod_nr seg_nr : Int) (seg_ext : String)
    (offset_at_loop_start : Int) (lmsg : Bool) : Except PyExc RewriteCall := do
  let v0 ← exceptHead cfg.vod_infos
  return { media_seg_file := content_dir ++ "/" ++ cfg.content_name ++ "/" ++ rel_path
                              ++ "/" ++ toString vod_nr ++ seg_ext,
           vod_nr := vod_nr,
           seg_nr := seg_nr,
           seg_duration := v0.seg_duration,
           offset_at_loop_start := offset_at_loop_start,
           lmsg := lmsg,
           timescale := rep.timescale,
           scte35_per_minute := if rep.content_type = "video" then cfg.scte35_per_minute else 0,
           rel_path := rel_path,
           is_ttml := rep.content_type = "subtitles" }

/-- Lines 325-374 of process_media_segment, from the point where the
requested segment number has been extracted from the filename stem:
validation against the effective start number and the configured terminal
numbers, the mapping arithmetic, and the single- or dual-representation
dispatch.  The commented-out per-segment availability window check of
lines 336-341 is absent, exactly as in the source. -/
def media_segment_with_nr (content_dir : String) (cfg : Config) (seg_nr : Int)
    (seg_ext : String) : Except PyExc Response := do
  let v0 ← exceptHead cfg.vod_infos
  let seg_dur := v0.seg_duration
  let seg_start_nr := effStart cfg
  if seg_nr < seg_start_nr then
    return (.errorResponse (tooEarlySegMsg seg_nr seg_start_nr))
  match cfg.last_segment_numbers.getLast? with
  | some very_last =>
    if seg_nr > very_last then
      return (.errorResponse (beyondLastMsg seg_nr very_last))
  | none => pure ()
  let lmsg := cfg.last_segment_numbers.contains seg_nr
  let seg_time := (seg_nr - seg_start_nr) * seg_dur + cfg.availability_start_time_in_s
  let (loops, time) ← pydivmod (seg_time - cfg.availability_start_time_in_s) cfg.loop_duration
  let md0 ← exceptHead cfg.initial_durations
  let last := if time ≥ md0 then md0 else 0
  let seg_nr_in_loop ← pydiv (time - last) seg_dur
  let offset_at_loop_start := loops * cfg.loop_duration + last
  let vod_nr := seg_nr_in_loop + v0.first_segment_in_loop
  if cfg.reps.length = 1 then
    let rep0 ← exceptNth cfg.reps 0
    let c ← filter_media_segment content_dir cfg rep0 cfg.rel_path vod_nr seg_nr seg_ext
              offset_at_loop_start lmsg
    return (.media (.single c))
  else
    let common := (splitChar '/' cfg.rel_path).dropLast
    let rep0 ← exceptNth cfg.reps 0
    let rep1 ← exceptNth cfg.reps 1
    let rel_path1 := joinSlash (common ++ [rep0.id])
    let rel_path2 := joinSlash (common ++ [rep1.id])
    let c1 ← filter_media_segment content_dir cfg rep0 rel_path1 vod_nr seg_nr seg_ext
               offset_at_loop_start lmsg
    let c2 ← filter_media_segment content_dir cfg rep1 rel_path2 vod_nr seg_nr seg_ext
               offset_at_loop_start lmsg
    return (.media (.muxed c1 c2))

/-- Lines 298-374: process_media_segment.  Extracts the requested segment
number from the first filename stem (a literal integer, or a time marker
rounded by `round(t / seg_dur / timescale)`) and continues with
`media_segment_with_nr`.  `now_float` is received but, like in the source,
never used: the per-segment timing checks are commented out there. -/
def process_media_segment (content_dir : String) (cfg : Config) (now_float : Int) :
    Except PyExc Response := do
  let v0 ← exceptHead cfg.vod_infos
  let seg_name ← exceptHead cfg.filenames
  let (seg_base, seg_ext) := splitext seg_name
  let c0 ← pyFirstChar seg_base
  let seg_nr ←
    if c0 = 't' then do
      let ts ← match get_timescale cfg with
               | some ts => Except.ok ts
               | none => Except.error PyExc.valueError
      let t ← pyInt (pyDrop1 seg_base)
      pyRoundDiv t (v0.seg_duration * ts)
    else pyInt seg_base
  let _ := now_float
  media_segment_with_nr content_dir cfg seg_nr seg_ext

/-- Lines 176-189: the availability gate of the `.m4s` branch of
parse_url.  Returns `some` error response when the request is before the
first segment availability time or after the availability end time plus
the 60 s grace, `none` when the gate passes. -/
def media_gate (cfg : Config) (now : Int) : Except PyExc (Option Response) := do
  let first_segment_ast ←
    if cfg.availability_time_offset_in_s = -1 then
      pure cfg.availability_start_time_in_s
    else do
      let v0 ← exceptHead cfg.vod_infos
      pure (cfg.availability_start_time_in_s + v0.seg_duration - cfg.availability_time_offset_in_s)
  if now < first_segment_ast then do
    let fn0 ← exceptHead cfg.filenames
    return (some (.errorResponse (tooEarlyFirstAstMsg fn0 (first_segment_ast - now))))
  match cfg.availability_end_time with
  | some aet =>
    if now > aet + EXTRA_TIME_AFTER_END_IN_S then do
      let fn0 ← exceptHead cfg.filenames
      return (some (.errorResponse (tooLateMsg fn0 (now - (aet + EXTRA_TIME_AFTER_END_IN_S)))))
    else return none
  | none => return none

/-- Lines 192-208: fault injection.  When exactly one multi-url entry
"uA_dB" (or "dA_uB") is configured, the cycle A+B is repeated
ceil(60/(A+B)) times against phase now mod 60 and the response is replaced
by a server-down error when the phase falls in a down sub-interval. -/
def apply_fault (cfg : Config) (now : Int) (response : Response) : Except PyExc Response := do
  match cfg.multi_url with
  | [mu] => do
    let (a_var, b_var) ←
      match splitChar '_' mu with
      | [a, b] => Except.ok (a, b)
      | _ => Except.error PyExc.valueError
    let dur1 ← pyInt (pyDrop1 a_var)
    let dur2 ← pyInt (pyDrop1 b_var)
    let total_dur := dur1 + dur2
    let num_loop ← pyCeilDiv 60 total_dur
    let now_mod_60 := now % 60
    let ca ← pyFirstChar a_var
    if ca = 'u' then do
      let cb ← pyFirstChar b_var
      if cb = 'd' then
        if (List.range num_loop.toNat).any (fun i =>
             decide ((i : Int) * total_dur + dur1 < now_mod_60 ∧
                     now_mod_60 ≤ ((i : Int) + 1) * total_dur)) then
          return (.errorResponse (serverDownMsg now))
        else return response
      else return response
    else if ca = 'd' then do
      let cb ← pyFirstChar b_var
      if cb = 'u' then
        if (List.range num_loop.toNat).any (fun i =>
             decide ((i : Int) * total_dur < now_mod_60 ∧
                     now_mod_60 ≤ (i : Int) * total_dur + dur1)) then
          return (.errorResponse (serverDownMsg now))
        else return response
      else return response
    else return response
  | _ => return response

/-- Lines 176-209: the `.m4s` branch of parse_url (gate, then media
segment processing, then fault injection; the unconditional half-second
sleep is a no-op in the model). -/
def m4s_branch (content_dir : String) (cfg : Config) (now : Int) : Except PyExc Response := do
  match ← media_gate cfg now with
  | some err => return err
  | none => do
    let response ← process_media_segment content_dir cfg now
    apply_fault cfg now response

/-- Lines 280-296: process_init_segment.  The external InitLiveFilter and
MultiplexInits calls are modelled by the file paths handed to them. -/
def process_init_segment (content_dir : String) (cfg : Config) : Except PyExc Response := do
  let nr_reps := cfg.reps.length
  if nr_reps = 1 then do
    let fn0 ← exceptHead cfg.filenames
    return (.initSeg (.single (content_dir ++ "/" ++ cfg.content_name ++ "/" ++ cfg.rel_path
                               ++ "/" ++ fn0)))
  else if nr_reps = 2 then do
    let fn0 ← exceptHead cfg.filenames
    let com_path := joinSlash ((splitChar '/' cfg.rel_path).dropLast)
    let rep0 ← exceptNth cfg.reps 0
    let rep1 ← exceptNth cfg.reps 1
    return (.initSeg (.muxed
      (content_dir ++ "/" ++ cfg.content_name ++ "/" ++ com_path ++ "/" ++ rep0.id ++ "/" ++ fn0)
      (content_dir ++ "/" ++ cfg.content_name ++ "/" ++ com_path ++ "/" ++ rep1.id ++ "/" ++ fn0)))
  else
    return (.errorResponse (badRepsMsg nr_reps))

/-- Lines 102-120: generate_period_data.  Builds one period record per
base_data entry; the per-period startNumber is
`startNumber + start / segDuration` with py2 integer floor division. -/
def generate_period_data (base_data : List BaseData) : Except PyExc (List PeriodData) :=
  base_data.mapM (fun data => do
    let q ← pydiv data.start data.segDuration
    let start_number := data.startNumber + q
    return { id := "p" ++ toString data.start,
             periodDuration := "PT" ++ toString data.duration ++ "S",
             start := "PT" ++ toString data.start ++ "S",
             startNumber := toString start_number,
             duration := data.segDuration,
             presentationTimeOffset := toString (data.start * data.timescale),
             start_s := data.start })

/-- Lines 264-274 of generate_dynamic_mpd: the base_data array.  The
running `start` begins at cfg.start_from_ast and each asset advances it by
`total_duration / timescale` (py2 integer floor division). -/
def build_base_data_go (cfg : Config) (start : Int) :
    List VodInfo → Except PyExc (List BaseData)
  | [] => .ok []
  | v :: rest => do
    let timeinseconds ← pydiv v.video_total_duration v.video_timescale
    let tailData ← build_base_data_go cfg (start + timeinseconds) rest
    return ({ timescale := v.video_timescale, start := start, duration := timeinseconds,
              segDuration := v.seg_duration, startNumber := cfg.start_nr } :: tailData)

/-- The base_data array of generate_dynamic_mpd. -/
def build_base_data (cfg : Config) : Except PyExc (List BaseData) :=
  build_base_data_go cfg cfg.start_from_ast cfg.vod_infos

/-- Lines 241-278: generate_dynamic_mpd, restricted to the period
arithmetic.  The top-level string fields (publishTime, timeShiftBufferDepth,
...) are produced by external formatters and handed verbatim to the
external XML serializer, so they are not modelled. -/
def generate_dynamic_mpd (cfg : Config) : Except PyExc Response := do
  let base ← build_base_data cfg
  let periods ← generate_period_data base
  return (.mpd periods)

/-- Lines 158-212: DashProvider.parse_url.  Config resolution by the
external ConfigProcessor is received as the `cfg0` input; the wall clock
is the integer `now` (the source keeps a float twin now_float = now). -/
def parse_url (content_dir : String) (cfg0 : Config) (now : Int) : Except PyExc Response := do
  let cfg ← sort_by_period cfg0 now
  if cfg.ext = ".mpd" then
    generate_dynamic_mpd cfg
  else if cfg.ext = ".mp4" then
    if now < cfg.availability_start_time_in_s - cfg.init_seg_avail_offset then do
      let fn0 ← exceptHead cfg.filenames
      let diff := (cfg.availability_start_time_in_s - cfg.init_seg_avail_offset) - now
      return (.errorResponse (tooEarlyInitMsg fn0 diff))
    else process_init_segment content_dir cfg
  else if cfg.ext = ".m4s" then
    m4s_branch content_dir cfg now
  else
    return (.unknownExt ("Unknown file extension: " ++ cfg.ext))

/-- Modelled from the spec: the manifest advertises segment number n as
available at instant `now` when n is at least the advertised start number
and the live edge has passed the end of the segment interval, that is
`now >= availabilityStartTime + (n + 1 - startNumber) * segDuration`
(the module docstring: segNr corresponds to the interval
[segNr*duration, (segNr+1)*duration], and process_media_segment's
docstring: segment_ast = (seg_nr+1-startNumber)*seg_dur).  The live-edge
rule itself is DASH semantics that no code under src computes. -/
def manifestAdvertises (cfg : Config) (now n : Int) : Bool :=
  match cfg.vod_infos with
  | [] => false
  | v :: _ =>
    decide (effStart cfg ≤ n ∧
      cfg.availability_start_time_in_s + (n + 1 - effStart cfg) * v.seg_duration ≤ now)

/-- The media-segment mapping path (availability gate of parse_url
followed by the validation in process_media_segment) accepts segment
number n at instant `now`: the request comes back as segment content
rather than as an error response or an exception. -/
def mediaPathAccepts (content_dir : String) (cfg : Config) (now n : Int) : Bool :=
  match media_gate cfg now with
  | .ok none =>
    match media_segment_with_nr content_dir cfg n ".m4s" with
    | .ok (.media _) => true
    | _ => false
  | _ => false

/-- The `time` value computed by the mapping for requested number n:
`fmod` of `segTime - availabilityStartTime` by the configured loop
duration (`segTime - ast` reduces to `(n - effStart) * segDuration`). -/
def codeTime (cfg : Config) (v : VodInfo) (n : Int) : Int :=
  Int.fmod ((n - effStart cfg) * v.seg_duration) cfg.loop_duration

/-- The `loops` value computed by the mapping for requested number n. -/
def codeLoops (cfg : Config) (v : VodInfo) (n : Int) : Int :=
  Int.fdiv ((n - effStart cfg) * v.seg_duration) cfg.loop_duration

/-- The `last` value: the first initial-duration boundary when `time` has
passed it, otherwise 0. -/
def codeLast (cfg : Config) (v : VodInfo) (n md0 : Int) : Int :=
  if md0 ≤ codeTime cfg v n then md0 else 0

/-- The local (VoD-relative) segment number produced by the mapping. -/
def codeVodNr (cfg : Config) (v : VodInfo) (n md0 : Int) : Int :=
  Int.fdiv (codeTime cfg v n - codeLast cfg v n md0) v.seg_duration + v.first_segment_in_loop

/-- The offset-at-loop-start produced by the mapping. -/
def codeOffset (cfg : Config) (v : VodInfo) (n md0 : Int) : Int :=
  codeLoops cfg v n * cfg.loop_duration + codeLast cfg v n md0

/-- The per-call facts shared by every byte-rewrite call a successful
media-segment response carries. -/
def callFields (cfg : Config) (v : VodInfo) (n md0 : Int) (c : RewriteCall) : Prop :=
  c.seg_nr = n ∧ c.seg_duration = v.seg_duration ∧
  (c.lmsg = true ↔ n ∈ cfg.last_segment_numbers) ∧
  c.vod_nr = codeVodNr cfg v n md0 ∧
  c.offset_at_loop_start = codeOffset cfg v n md0

/-- Discriminator: the result is segment content. -/
def isMediaResp : Except PyExc Response → Bool
  | .ok (.media _) => true
  | _ => false

/-- The byte-rewrite calls carried by a response. -/
def segCalls : Response → List RewriteCall
  | .media (.single c) => [c]
  | .media (.muxed c1 c2) => [c1, c2]
  | _ => []

/-- Mapping formula of the spec (section 4.2):
segTime = (requestedSegNr - effectiveStartNumber) * segDuration +
availabilityStartTime. -/
def specSegTime (cfg : Config) (v : VodInfo) (n : Int) : Int :=
  (n - effStart cfg) * v.seg_duration + cfg.availability_start_time_in_s

/-- Spec formula: loops = (segTime - availabilityStartTime) div loopDuration,
with loopDuration the sum of the active rotation's wrap durations. -/
def specLoops (cfg : Config) (v : VodInfo) (n : Int) : Int :=
  Int.fdiv (specSegTime cfg v n - cfg.availability_start_time_in_s) (sumWraps cfg.vod_infos)

/-- Spec formula: time = (segTime - availabilityStartTime) mod loopDuration. -/
def specTime (cfg : Config) (v : VodInfo) (n : Int) : Int :=
  Int.fmod (specSegTime cfg v n - cfg.availability_start_time_in_s) (sumWraps cfg.vod_infos)

/-- Spec formula: last = initialDurations[0] if time has reached it, else 0. -/
def specLast (cfg : Config) (v : VodInfo) (n md0 : Int) : Int :=
  if specTime cfg v n ≥ md0 then md0 else 0

/-- Spec formula: localSegNr = (time - last) / segDuration +
firstSegmentInLoop of the active asset. -/
def specVodNr (cfg : Config) (v : VodInfo) (n md0 : Int) : Int :=
  Int.fdiv (specTime cfg v n - specLast cfg v n md0) v.seg_duration + v.first_segment_in_loop

/-- Spec formula: offsetAtLoopStart = loops * loopDuration + last. -/
def specOffset (cfg : Config) (v : VodInfo) (n md0 : Int) : Int :=
  specLoops cfg v n * sumWraps cfg.vod_infos + specLast cfg v n md0

/-- The VoD asset of the small concrete configurations: 40 s of content
cut into 4 s segments. -/
def baseAsset : VodInfo :=
  { seg_duration := 4, wrap_seconds := 40, first_segment_in_loop := 0,
    video_total_duration := 3600, video_timescale := 90 }

/-- A small concrete configuration used to instantiate the claims: one
40 s video asset cut into 4 s segments, availability start at epoch 0,
startNumber 0, availabilityTimeOffset -1, a single video representation. -/
def baseCfg : Config :=
  { ext := ".m4s", content_name := "testpic", rel_path := "A1",
    filenames := ["10.m4s"],
    vod_infos := [baseAsset],
    availability_start_time_in_s := 0, availability_time_offset_in_s := -1,
    availability_end_time := none, init_seg_avail_offset := 0, start_nr := 0,
    last_segment_numbers := [], multi_url := [], initial_durations := [40],
    loop_duration := 40, start_from_ast := 0,
    reps := [{ id := "V1", timescale := 90000, content_type := "video" }],
    repId := "V1", scte35_per_minute := 0 }

/-- Concrete configuration for claim C1. -/
def cfgC1 : Config := baseCfg

/-- Concrete two-asset-shaped catalog entry with wrap duration 8 s. -/
def shortAsset : VodInfo :=
  { seg_duration := 4, wrap_seconds := 8, first_segment_in_loop := 0,
    video_total_duration := 720, video_timescale := 90 }

/-- Concrete configuration for claim C2: one asset of wrap duration 8 s. -/
def cfgC2 : Config := { baseCfg with vod_infos := [shortAsset] }

/-- Concrete configuration for claim C3 (Scenario A), parameterised by
the requested filename. -/
def cfgC3 (fname : String) : Config := { baseCfg with filenames := [fname] }

/-- Concrete configuration for claim C4: a single asset of wrap 8 s. -/
def cfgC4 : Config := { baseCfg with vod_infos := [shortAsset] }

/-- Concrete configuration for claim C5's witness. -/
def cfgC5 : Config := { baseCfg with last_segment_numbers := [11] }

/-- Concrete configuration for claim C6: configured start number 5
together with a terminal segment-number set whose maximum is 3. -/
def cfgC6 : Config := { baseCfg with start_nr := 5, last_segment_numbers := [3] }

/-- Concrete configuration for claim C6's witness: terminal set [11]. -/
def cfgC6w : Config := { baseCfg with last_segment_numbers := [11] }

/-- Concrete configuration for claim C7: fault window u10_d5. -/
def cfgC7 : Config := { baseCfg with multi_url := ["u10_d5"], filenames := ["3.m4s"] }

/-- Concrete configuration for claim C8: the single asset has wrap
duration 0, so the catalog's wrap durations sum to zero. -/
def cfgC8 : Config :=
  { baseCfg with vod_infos := [{ seg_duration := 4, wrap_seconds := 0,
                                 first_segment_in_loop := 0, video_total_duration := 0,
                                 video_timescale := 90 }] }

/-- Concrete configuration for claim C9: three representations. -/
def cfgC9 : Config :=
  { baseCfg with reps := [{ id := "V1", timescale := 90000, content_type := "video" },
                          { id := "A1", timescale := 48000, content_type := "audio" },
                          { id := "S1", timescale := 1000, content_type := "subtitles" }] }

/-- Concrete configuration for claim C9's witness: two representations. -/
def cfgC9w : Config :=
  { baseCfg with reps := [{ id := "V1", timescale := 90000, content_type := "video" },
                          { id := "A1", timescale := 48000, content_type := "audio" }] }

/-- Concrete configuration for claim C10's witness. -/
def cfgC10 : Config := baseCfg

/-- Unfolding lemma: bind on a successful Except value. -/
theorem ebind_ok {α β : Type} (a : α) (f : α → Except PyExc β) :
    (Except.ok a >>= f : Except PyExc β) = f a := rfl

/-- Unfolding lemma: bind on a failed Except value. -/
theorem ebind_err {α β : Type} (e : PyExc) (f : α → Except PyExc β) :
    ((Except.error e : Except PyExc α) >>= f) = Except.error e := rfl

/-- Unfolding lemma: pure is ok. -/
theorem epure {α : Type} (a : α) : (pure a : Except PyExc α) = Except.ok a := rfl

/-- Unfolding lemma: head of a cons. -/
theorem exceptHead_cons {α : Type} (x : α) (l : List α) :
    exceptHead (x :: l) = Except.ok x := rfl

/-- Unfolding lemma: head of the empty list. -/
theorem exceptHead_nil {α : Type} : (exceptHead ([] : List α)) = Except.error PyExc.indexError := rfl

/-- Unfolding lemma: index 0. -/
theorem exceptNth_zero {α : Type} (x : α) (l : List α) :
    exceptNth (x :: l) 0 = Except.ok x := rfl

/-- Unfolding lemma: index 1. -/
theorem exceptNth_one {α : Type} (x y : α) (l : List α) :
    exceptNth (x :: y :: l) 1 = Except.ok y := rfl

/-- Python divmod with a nonzero divisor. -/
theorem pydivmod_ne (a b : Int) (h : b ≠ 0) :
    pydivmod a b = Except.ok (a.fdiv b, a.fmod b) := by
  simp [pydivmod, h]

/-- Python floor division with a nonzero divisor. -/
theorem pydiv_ne (a b : Int) (h : b ≠ 0) : pydiv a b = Except.ok (a.fdiv b) := by
  simp [pydiv, h]

/-- Core success lemma for the media mapping: when the requested number
passes validation and the configured divisors are nonzero, the mapping
returns segment content whose byte-rewrite calls carry exactly the
computed local number, offset and terminal flag; with an empty
representation list the source crashes with an IndexError. -/
theorem media_segment_success (content_dir : String) (cfg : Config) (n : Int) (seg_ext : String)
    (v : VodInfo) (rest : List VodInfo) (md0 : Int) (mdr : List Int)
    (hv : cfg.vod_infos = v :: rest)
    (hmd : cfg.initial_durations = md0 :: mdr)
    (hD : v.seg_duration ≠ 0)
    (hL0 : cfg.loop_duration ≠ 0)
    (heff : effStart cfg ≤ n)
    (hterm : ∀ m, cfg.last_segment_numbers.getLast? = some m → n ≤ m) :
    (cfg.reps = [] →
      media_segment_with_nr content_dir cfg n seg_ext = Except.error PyExc.indexError) ∧
    (∀ rep0, cfg.reps = [rep0] →
      ∃ c, media_segment_with_nr content_dir cfg n seg_ext =
             Except.ok (Response.media (SegContent.single c)) ∧
           callFields cfg v n md0 c ∧ c.timescale = rep0.timescale) ∧
    (∀ rep0 rep1 rrest, cfg.reps = rep0 :: rep1 :: rrest →
      ∃ c1 c2, media_segment_with_nr content_dir cfg n seg_ext =
             Except.ok (Response.media (SegContent.muxed c1 c2)) ∧
           callFields cfg v n md0 c1 ∧ callFields cfg v n md0 c2 ∧
           c1.timescale = rep0.timescale ∧ c2.timescale = rep1.timescale) := by
  have hnotlt : ¬ n < effStart cfg := not_lt.mpr heff
  have hdiff : (n - effStart cfg) * v.seg_duration + cfg.availability_start_time_in_s -
      cfg.availability_start_time_in_s = (n - effStart cfg) * v.seg_duration := by ring
  unfold media_segment_with_nr
  rw [hv, hmd]
  simp only [exceptHead_cons, ebind_ok, epure, hnotlt, if_false, hdiff]
  cases hgl : cfg.last_segment_numbers.getLast? with
  | some vl =>
    have hngt : ¬ n > vl := not_lt.mpr (hterm vl hgl)
    simp only [hngt, if_false]
    rw [pydivmod_ne _ _ hL0]
    simp only [ebind_ok, ge_iff_le]
    rw [pydiv_ne _ _ hD]
    simp only [ebind_ok]
    unfold filter_media_segment
    rw [hv]
    simp only [exceptHead_cons, ebind_ok, epure]
    refine ⟨?_, ?_, ?_⟩
    · intro hr
      rw [hr]
      simp [exceptNth, ebind_err]
    · intro rep0 hr
      rw [hr]
      simp only [List.length_cons, List.length_nil, if_pos rfl, exceptNth_zero, ebind_ok]
      refine ⟨_, rfl, ?_, rfl⟩
      refine ⟨rfl, rfl, ?_, rfl, rfl⟩
      simp [List.contains, List.elem_iff]
    · intro rep0 rep1 rrest hr
      rw [hr]
      have hlen : (rep0 :: rep1 :: rrest).length ≠ 1 := by simp
      simp only [if_neg hlen, exceptNth_zero, exceptNth_one, ebind_ok]
      refine ⟨_, _, rfl, ⟨rfl, rfl, ?_, rfl, rfl⟩, ⟨rfl, rfl, ?_, rfl, rfl⟩, rfl, rfl⟩ <;>
        simp [List.contains, List.elem_iff]
  | none =>
    rw [pydivmod_ne _ _ hL0]
    simp only [ebind_ok, ge_iff_le]
    rw [pydiv_ne _ _ hD]
    simp only [ebind_ok]
    unfold filter_media_segment
    rw [hv]
    simp only [exceptHead_cons, ebind_ok, epure]
    refine ⟨?_, ?_, ?_⟩
    · intro hr
      rw [hr]
      simp [exceptNth, ebind_err]
    · intro rep0 hr
      rw [hr]
      simp only [List.length_cons, List.length_nil, if_pos rfl, exceptNth_zero, ebind_ok]
      refine ⟨_, rfl, ?_, rfl⟩
      refine ⟨rfl, rfl, ?_, rfl, rfl⟩
      simp [List.contains, List.elem_iff]
    · intro rep0 rep1 rrest hr
      rw [hr]
      have hlen : (rep0 :: rep1 :: rrest).length ≠ 1 := by simp
      simp only [if_neg hlen, exceptNth_zero, exceptNth_one, ebind_ok]
      refine ⟨_, _, rfl, ⟨rfl, rfl, ?_, rfl, rfl⟩, ⟨rfl, rfl, ?_, rfl, rfl⟩, rfl, rfl⟩ <;>
        simp [List.contains, List.elem_iff]

/-- The availability gate of the media branch passes when the wall clock
has reached the first-segment availability time and no availability end
time is configured. -/
theorem media_gate_pass (cfg : Config) (now : Int) (v : VodInfo) (rest : List VodInfo)
    (hv : cfg.vod_infos = v :: rest)
    (haet : cfg.availability_end_time = none)
    (hnow : (if cfg.availability_time_offset_in_s = -1 then cfg.availability_start_time_in_s
             else cfg.availability_start_time_in_s + v.seg_duration -
                  cfg.availability_time_offset_in_s) ≤ now) :
    media_gate cfg now = Except.ok none := by
  unfold media_gate
  rw [hv, haet]
  by_cases hato : cfg.availability_time_offset_in_s = -1
  · rw [if_pos hato] at hnow
    simp only [if_pos hato, epure, ebind_ok, exceptHead_cons, not_lt.mpr hnow, if_false]
  · rw [if_neg hato] at hnow
    simp only [if_neg hato, epure, ebind_ok, exceptHead_cons, not_lt.mpr hnow, if_false]

/-- Claim C1 counterexample: with a 4 s segment duration, availability
start 0, start number 0 and availabilityTimeOffset -1, at now = 40 the
media mapping path accepts segment number 10, but the manifest
arithmetic does not advertise it (its interval ends at 44 > 40), so the
mapping path accepts a segment number the manifest does not advertise. -/
theorem claim_C1_counterexample :
    mediaPathAccepts "content" cfgC1 40 10 = true ∧
    manifestAdvertises cfgC1 40 10 = false :=
  ⟨rfl, rfl⟩

/-- Claim C1 (amended): one direction of the claimed equivalence holds:
for a configuration with a nonempty rotation, positive first segment
duration, availabilityTimeOffset either -1 or nonnegative, no
availability end time, no terminal segment-number set, a nonzero loop
duration, a nonempty initial-durations list and a nonempty representation
list, every segment number the manifest arithmetic advertises as
available at `now` is accepted by the media mapping path at `now`.  The
converse direction of the claim is false (the per-segment availability
check of the source is commented out), as the counterexample shows. -/
theorem claim_C1_amended_thm (content_dir : String) (cfg : Config) (now n : Int)
    (v : VodInfo) (rest : List VodInfo) (md0 : Int) (mdr : List Int)
    (hv : cfg.vod_infos = v :: rest)
    (hmd : cfg.initial_durations = md0 :: mdr)
    (hD : 0 < v.seg_duration)
    (hato : cfg.availability_time_offset_in_s = -1 ∨ 0 ≤ cfg.availability_time_offset_in_s)
    (haet : cfg.availability_end_time = none)
    (hterm : cfg.last_segment_numbers = [])
    (hL0 : cfg.loop_duration ≠ 0)
    (hreps : cfg.reps ≠ [])
    (hadv : manifestAdvertises cfg now n = true) :
    mediaPathAccepts content_dir cfg now n = true := by
  unfold manifestAdvertises at hadv
  rw [hv] at hadv
  obtain ⟨heff, hlive⟩ := of_decide_eq_true hadv
  have hfsa : (if cfg.availability_time_offset_in_s = -1 then cfg.availability_start_time_in_s
      else cfg.availability_start_time_in_s + v.seg_duration -
           cfg.availability_time_offset_in_s) ≤ now := by
    rcases hato with h | h
    · rw [if_pos h]
      nlinarith [mul_pos (by linarith : (0 : Int) < n + 1 - effStart cfg) hD]
    · have hne : cfg.availability_time_offset_in_s ≠ -1 := by intro hc; rw [hc] at h; omega
      rw [if_neg hne]
      nlinarith [mul_le_mul_of_nonneg_right
        (by linarith : (1 : Int) ≤ n + 1 - effStart cfg) (le_of_lt hD)]
  have hgate := media_gate_pass cfg now v rest hv haet hfsa
  have htrm : ∀ m, cfg.last_segment_numbers.getLast? = some m → n ≤ m := by
    rw [hterm]
    intro m hm
    exact absurd hm (by simp)
  have hms := media_segment_success content_dir cfg n ".m4s" v rest md0 mdr hv hmd
    (ne_of_gt hD) hL0 heff htrm
  unfold mediaPathAccepts
  rw [hgate]
  cases hcr : cfg.reps with
  | nil => exact absurd hcr hreps
  | cons r0 rs =>
    cases rs with
    | nil =>
      obtain ⟨c, hc, -, -⟩ := hms.2.1 r0 hcr
      rw [hc]
    | cons r1 rs2 =>
      obtain ⟨c1, c2, hc, -⟩ := hms.2.2 r0 r1 rs2 hcr
      rw [hc]

/-- Claim C1 witness: at now = 8 the manifest advertises segment 1 and
the media path accepts it. -/
theorem claim_C1_witness :
    manifestAdvertises cfgC1 8 1 = true ∧ mediaPathAccepts "content" cfgC1 8 1 = true :=
  ⟨rfl, claim_C1_amended_thm "content" cfgC1 8 1 baseAsset [] 40 [] rfl rfl (by decide)
    (Or.inl rfl) rfl rfl (by decide) (by decide) rfl⟩

/-- Claim C3 counterexample: Scenario A claims that at now = 40 (with
availabilityStartTime = 0, segDuration = 4, startNumber = 0,
availabilityTimeOffset = -1) the request for segment number 10 yields the
TooEarlyMedia timing error; in the source that request is served as media
content: with availabilityTimeOffset = -1 the gate only requires
now ≥ availabilityStartTime = 0, and the per-segment availability check
is commented out. -/
theorem claim_C3_counterexample :
    isMediaResp (parse_url "content" (cfgC3 "10.m4s") 40) = true := rfl

/-- Claim C3 (amended): with availabilityStartTime = 0, segDuration = 4,
startNumber = 0, availabilityTimeOffset = -1, at now = 40 a media-segment
request for every segment number 0 through 10 is accepted (served as
media content, no timing error).  In particular segments 0..9 are
available as claimed, but segment 10 does not yield TooEarlyMedia: that
error arises only when now < firstSegmentAst = availabilityStartTime = 0. -/
theorem claim_C3_amended_thm (n : Nat) (h : n ≤ 10) :
    isMediaResp (parse_url "content" (cfgC3 (toString n ++ ".m4s")) 40) = true := by
  interval_cases n <;> rfl

/-- Claim C3 witness: the amended theorem applied at segment number 10. -/
theorem claim_C3_witness :
    (10 : Nat) ≤ 10 ∧
    isMediaResp (parse_url "content" (cfgC3 (toString (10 : Nat) ++ ".m4s")) 40) = true :=
  ⟨by decide, claim_C3_amended_thm 10 (by decide)⟩

/-- The forward rotation step of sort_by_period succeeds on nonempty
lists, preserves the wrap-duration sum, nonemptiness and the
availability start time. -/
theorem sort_fwd_spec (cfg : Config) (tm : Int)
    (hv : cfg.vod_infos ≠ []) (hf : cfg.filenames ≠ []) :
    ∃ cfg1, sort_fwd cfg tm = Except.ok cfg1 ∧
      cfg1.vod_infos ≠ [] ∧ cfg1.filenames ≠ [] ∧
      sumWraps cfg1.vod_infos = sumWraps cfg.vod_infos ∧
      cfg1.availability_start_time_in_s = cfg.availability_start_time_in_s := by
  unfold sort_fwd
  by_cases hrot : shouldRotate tm 0 cfg.vod_infos
  · cases hcv : cfg.vod_infos with
    | nil => exact absurd hcv hv
    | cons v vs =>
      cases hcf : cfg.filenames with
      | nil => exact absurd hcf hf
      | cons f fs =>
        rw [hcv] at hrot
        simp only [hcv, hcf, exceptHead_cons, ebind_ok, epure]
        rw [if_pos hrot]
        refine ⟨_, rfl, by simp, by simp, ?_, rfl⟩
        simp [sumWraps]
        ring
  · simp only [hrot, if_false, epure]
    exact ⟨cfg, rfl, hv, hf, rfl, rfl⟩

/-- The backward step of sort_by_period succeeds on nonempty lists and
either leaves the catalog unchanged or prepends a copy of its last
element (the source does not remove it from the back). -/
theorem sort_dup_spec (cfg : Config) (now : Int)
    (hv : cfg.vod_infos ≠ []) (hf : cfg.filenames ≠ []) :
    ∃ cfg2, sort_dup cfg now = Except.ok cfg2 ∧ cfg2.vod_infos ≠ [] ∧
      (cfg2.vod_infos = cfg.vod_infos ∨
       ∃ w, cfg.vod_infos.getLast? = some w ∧ cfg2.vod_infos = w :: cfg.vod_infos) := by
  unfold sort_dup
  cases hcv : cfg.vod_infos with
  | nil => exact absurd hcv hv
  | cons v vs =>
    cases hcf : cfg.filenames with
    | nil => exact absurd hcf hf
    | cons f fs =>
      simp only [hcv, hcf, exceptHead_cons, ebind_ok]
      by_cases hc : now - cfg.availability_start_time_in_s > v.wrap_seconds
      · obtain ⟨w, hw⟩ : ∃ w, (v :: vs).getLast? = some w := by
          cases hgl : (v :: vs).getLast? with
          | none => exact absurd hgl (by simp)
          | some w => exact ⟨w, rfl⟩
        obtain ⟨g, hg⟩ : ∃ g, (f :: fs).getLast? = some g := by
          cases hgl : (f :: fs).getLast? with
          | none => exact absurd hgl (by simp)
          | some g => exact ⟨g, rfl⟩
        simp only [hc, if_true, exceptLast, hw, hg, ebind_ok, epure]
        exact ⟨_, rfl, by simp, Or.inr ⟨w, rfl, by simp⟩⟩
      · simp only [hc, if_false, epure]
        exact ⟨cfg, rfl, hv, Or.inl hcv⟩

/-- Claim C2 counterexample: for the catalog of one asset with wrap
duration 8 at now = 10 (availability start 0), sort_by_period duplicates
the asset: the wrap-duration sum of the result is 16, not the original 8. -/
theorem claim_C2_counterexample :
    (sort_by_period cfgC2 10).map (fun c => sumWraps c.vod_infos) = Except.ok 16 ∧
    sumWraps cfgC2.vod_infos = 8 ∧ (16 : Int) ≠ 8 :=
  ⟨rfl, rfl, by decide⟩

/-- Claim C2 (amended): for a catalog with nonzero total wrap duration
(and a nonempty filename list), sort_by_period succeeds and the resulting
catalog is never empty; the sum of wrap durations is either preserved or,
when the backward step fires, increased by exactly the wrap duration of
the asset that the source copies (rather than moves) to the front. -/
theorem claim_C2_amended_thm (cfg : Config) (now : Int)
    (hv : cfg.vod_infos ≠ []) (hf : cfg.filenames ≠ [])
    (ht : sumWraps cfg.vod_infos ≠ 0) :
    ∃ cfg', sort_by_period cfg now = Except.ok cfg' ∧ cfg'.vod_infos ≠ [] ∧
      (sumWraps cfg'.vod_infos = sumWraps cfg.vod_infos ∨
       ∃ w, cfg'.vod_infos.head? = some w ∧
         sumWraps cfg'.vod_infos = sumWraps cfg.vod_infos + w.wrap_seconds) := by
  unfold sort_by_period
  simp only [pydivmod_ne _ _ ht, ebind_ok]
  obtain ⟨cfg1, h1, hv1, hf1, hsum1, hast1⟩ := sort_fwd_spec cfg _ hv hf
  rw [h1]
  simp only [ebind_ok]
  obtain ⟨cfg2, h2, hv2, hcase⟩ := sort_dup_spec cfg1 now hv1 hf1
  rw [h2]
  simp only [ebind_ok, epure]
  refine ⟨_, rfl, by simpa using hv2, ?_⟩
  rcases hcase with h | ⟨w, hw, hw2⟩
  · left
    simpa [h] using hsum1
  · right
    refine ⟨w, by simp [hw2], ?_⟩
    simp only [hw2, sumWraps, List.map_cons, List.sum_cons] at *
    omega

/-- Claim C2 witness: the amended theorem applied to the concrete
one-asset catalog of wrap duration 8 at now = 10. -/
theorem claim_C2_witness :
    ∃ cfg', sort_by_period cfgC2 10 = Except.ok cfg' ∧ cfg'.vod_infos ≠ [] ∧
      (sumWraps cfg'.vod_infos = sumWraps cfgC2.vod_infos ∨
       ∃ w, cfg'.vod_infos.head? = some w ∧
         sumWraps cfg'.vod_infos = sumWraps cfgC2.vod_infos + w.wrap_seconds) :=
  claim_C2_amended_thm cfgC2 10 (by decide) (by decide) (by decide)

/-- Claim C4 counterexample: a single-asset catalog (wrap duration 8) at
now = 10 with availability start 0 is NOT left structurally unchanged by
sort_by_period: the asset is duplicated, giving a two-element sequence,
and start_from_ast becomes 0 rather than the claimed
loops * total = 1 * 8 = 8. -/
theorem claim_C4_counterexample :
    (sort_by_period cfgC4 10).map (fun c => c.vod_infos.length) = Except.ok 2 ∧
    cfgC4.vod_infos.length = 1 ∧
    (sort_by_period cfgC4 10).map (fun c => c.start_from_ast) = Except.ok 0 ∧
    cfgC4.start_from_ast + 1 * 8 = (8 : Int) ∧ (8 : Int) ≠ 0 :=
  ⟨rfl, rfl, rfl, rfl, by decide⟩

/-- Claim C4 (amended): a single-asset catalog never triggers the forward
rotation; when now - availabilityStartTime ≤ wrap the sequence is left
structurally unchanged and start_from_ast is adjusted by exactly
loops * total; but when now - availabilityStartTime > wrap the single
asset is duplicated at the front and start_from_ast is adjusted by
loops * total - wrap. -/
theorem claim_C4_amended_thm (cfg : Config) (v : VodInfo) (f : String) (now : Int)
    (hv : cfg.vod_infos = [v]) (hf : cfg.filenames = [f])
    (hw : 0 < v.wrap_seconds) (hs : 0 ≤ v.seg_duration) :
    ∃ cfg', sort_by_period cfg now = Except.ok cfg' ∧
      ((now - cfg.availability_start_time_in_s ≤ v.wrap_seconds →
         cfg'.vod_infos = [v] ∧ cfg'.filenames = [f] ∧
         cfg'.start_from_ast = cfg.start_from_ast +
           Int.fdiv (now - cfg.availability_start_time_in_s) v.wrap_seconds * v.wrap_seconds) ∧
       (v.wrap_seconds < now - cfg.availability_start_time_in_s →
         cfg'.vod_infos = [v, v] ∧ cfg'.filenames = [f, f] ∧
         cfg'.start_from_ast = cfg.start_from_ast - v.wrap_seconds +
           Int.fdiv (now - cfg.availability_start_time_in_s) v.wrap_seconds * v.wrap_seconds)) := by
  have htot : sumWraps cfg.vod_infos = v.wrap_seconds := by simp [hv, sumWraps]
  have ht : sumWraps cfg.vod_infos ≠ 0 := by omega
  have htot1 : sumWraps [v] = v.wrap_seconds := by simp [sumWraps]
  have hrot : shouldRotate (Int.fmod (now - cfg.availability_start_time_in_s)
      (sumWraps cfg.vod_infos)) 0 cfg.vod_infos = false := by
    rw [hv, htot1]
    have hlt := Int.fmod_lt_of_pos (now - cfg.availability_start_time_in_s) hw
    simp only [shouldRotate, if_neg (by omega : ¬ Int.fmod (now - cfg.availability_start_time_in_s)
      v.wrap_seconds > 0 + v.wrap_seconds + v.seg_duration)]
  unfold sort_by_period
  simp only [pydivmod_ne _ _ ht, ebind_ok]
  unfold sort_fwd
  rw [hrot]
  simp only [Bool.false_eq_true, if_false, epure, ebind_ok]
  unfold sort_dup
  rw [hv, hf]
  simp only [exceptHead_cons, ebind_ok]
  by_cases hc : now - cfg.availability_start_time_in_s > v.wrap_seconds
  · simp only [hc, if_true, exceptLast, List.getLast?_singleton, ebind_ok, epure, htot]
    refine ⟨_, rfl, fun hle => absurd hc (not_lt.mpr hle), fun _ => ⟨by simp [hv], by simp [hf], ?_⟩⟩
    simp [htot1]
  · simp only [hc, if_false, epure, htot]
    refine ⟨_, rfl, fun _ => ⟨by simp [hv], by simp [hf], by simp [htot1]⟩,
      fun hgt => hgt.elim⟩

/-- Claim C4 witness: the amended theorem at the concrete single-asset
catalog of wrap duration 8, now = 10. -/
theorem claim_C4_witness :
    ∃ cfg', sort_by_period cfgC4 10 = Except.ok cfg' ∧
      ((10 - cfgC4.availability_start_time_in_s ≤ shortAsset.wrap_seconds →
         cfg'.vod_infos = [shortAsset] ∧ cfg'.filenames = ["10.m4s"] ∧
         cfg'.start_from_ast = cfgC4.start_from_ast +
           Int.fdiv (10 - cfgC4.availability_start_time_in_s) shortAsset.wrap_seconds *
             shortAsset.wrap_seconds) ∧
       (shortAsset.wrap_seconds < 10 - cfgC4.availability_start_time_in_s →
         cfg'.vod_infos = [shortAsset, shortAsset] ∧ cfg'.filenames = ["10.m4s", "10.m4s"] ∧
         cfg'.start_from_ast = cfgC4.start_from_ast - shortAsset.wrap_seconds +
           Int.fdiv (10 - cfgC4.availability_start_time_in_s) shortAsset.wrap_seconds *
             shortAsset.wrap_seconds)) :=
  claim_C4_amended_thm cfgC4 shortAsset "10.m4s" 10 rfl rfl (by decide) (by decide)

/-- Claim C5: the mapping arithmetic of process_media_segment agrees
with the spec formulas: every byte-rewrite call of an accepted request
carries seg_nr = requestedSegNr, the terminal flag true iff the request
is in the configured terminal set, localSegNr = segNrInLoop +
firstSegmentInLoop and offsetAtLoopStart = loops * loopDuration + last,
where loops/time/last are computed by the spec formulas with
loopDuration = sum of the active rotation's wrap durations.  The
loop_duration and initial_durations fields are populated by the external
ConfigProcessor (not under src), so the spec's identification of
loop_duration with that sum is taken as a hypothesis. -/
theorem claim_C5_thm (content_dir : String) (cfg : Config) (n : Int) (seg_ext : String)
    (v : VodInfo) (rest : List VodInfo) (md0 : Int) (mdr : List Int)
    (hv : cfg.vod_infos = v :: rest)
    (hmd : cfg.initial_durations = md0 :: mdr)
    (hD : v.seg_duration ≠ 0)
    (hL : cfg.loop_duration = sumWraps cfg.vod_infos)
    (hL0 : cfg.loop_duration ≠ 0)
    (heff : effStart cfg ≤ n)
    (hterm : ∀ m, cfg.last_segment_numbers.getLast? = some m → n ≤ m)
    (hreps : cfg.reps ≠ []) :
    ∃ r, media_segment_with_nr content_dir cfg n seg_ext = Except.ok r ∧
      segCalls r ≠ [] ∧
      ∀ c ∈ segCalls r,
        c.seg_nr = n ∧
        (c.lmsg = true ↔ n ∈ cfg.last_segment_numbers) ∧
        c.vod_nr = specVodNr cfg v n md0 ∧
        c.offset_at_loop_start = specOffset cfg v n md0 := by
  have hms := media_segment_success content_dir cfg n seg_ext v rest md0 mdr hv hmd hD hL0
    heff hterm
  have htime : codeTime cfg v n = specTime cfg v n := by
    unfold codeTime specTime specSegTime
    rw [hL]
    congr 1
    ring
  have hloops : codeLoops cfg v n = specLoops cfg v n := by
    unfold codeLoops specLoops specSegTime
    rw [hL]
    congr 1
    ring
  have hlast : codeLast cfg v n md0 = specLast cfg v n md0 := by
    unfold codeLast specLast
    rw [htime]
  have hvodnr : codeVodNr cfg v n md0 = specVodNr cfg v n md0 := by
    unfold codeVodNr specVodNr
    rw [htime, hlast]
  have hoffset : codeOffset cfg v n md0 = specOffset cfg v n md0 := by
    unfold codeOffset specOffset
    rw [hloops, hlast, hL]
  cases hcr : cfg.reps with
  | nil => exact absurd hcr hreps
  | cons r0 rs =>
    cases rs with
    | nil =>
      obtain ⟨c, hc, hcf, -⟩ := hms.2.1 r0 hcr
      refine ⟨_, hc, by simp [segCalls], ?_⟩
      intro c2 hc2
      simp only [segCalls, List.mem_singleton] at hc2
      subst hc2
      exact ⟨hcf.1, hcf.2.2.1, by rw [hcf.2.2.2.1, hvodnr], by rw [hcf.2.2.2.2, hoffset]⟩
    | cons r1 rs2 =>
      obtain ⟨c1, c2, hc, hcf1, hcf2, -, -⟩ := hms.2.2 r0 r1 rs2 hcr
      refine ⟨_, hc, by simp [segCalls], ?_⟩
      intro c hcmem
      simp only [segCalls, List.mem_cons, List.mem_singleton, List.not_mem_nil, or_false]
        at hcmem
      rcases hcmem with h | h <;> subst h
      · exact ⟨hcf1.1, hcf1.2.2.1, by rw [hcf1.2.2.2.1, hvodnr], by rw [hcf1.2.2.2.2, hoffset]⟩
      · exact ⟨hcf2.1, hcf2.2.2.1, by rw [hcf2.2.2.2.1, hvodnr], by rw [hcf2.2.2.2.2, hoffset]⟩

/-- Claim C5 witness: the theorem applied at the concrete configuration
with terminal set [11] and requested segment number 7. -/
theorem claim_C5_witness :
    ∃ r, media_segment_with_nr "content" cfgC5 7 ".m4s" = Except.ok r ∧
      segCalls r ≠ [] ∧
      ∀ c ∈ segCalls r,
        c.seg_nr = 7 ∧
        (c.lmsg = true ↔ (7 : Int) ∈ cfgC5.last_segment_numbers) ∧
        c.vod_nr = specVodNr cfgC5 baseAsset 7 40 ∧
        c.offset_at_loop_start = specOffset cfgC5 baseAsset 7 40 :=
  claim_C5_thm "content" cfgC5 7 ".m4s" baseAsset [] 40 [] rfl rfl (by decide) rfl
    (by decide) (by decide)
    (by
      intro m hm
      simp only [cfgC5, baseCfg, List.getLast?_singleton, Option.some.injEq] at hm
      omega)
    (by decide)

/-- Claim C6 counterexample: with configured start number 5 and terminal
set [3], the request for segment number 4 is greater than the terminal
maximum 3, yet it returns the TooEarlySegmentNumber error (the too-early
check runs first), not the BeyondLastSegment error. -/
theorem claim_C6_counterexample :
    media_segment_with_nr "content" cfgC6 4 ".m4s" =
      Except.ok (Response.errorResponse (tooEarlySegMsg 4 5)) ∧
    cfgC6.last_segment_numbers.maximum = ((3 : Int) : WithBot Int) ∧ (3 : Int) < 4 ∧
    tooEarlySegMsg 4 5 ≠ beyondLastMsg 4 3 :=
  ⟨rfl, rfl, by decide, by decide⟩

/-- Claim C6 (amended): a request below the effective start number always
returns TooEarlySegmentNumber; and provided the request is at least the
effective start number, a request above the maximum of a configured
terminal set always returns BeyondLastSegment (carrying the LAST element
of the configured list, which the maximum bounds).  The order matters:
the too-early check runs first, so the claim's unconditional second part
fails, as the counterexample shows. -/
theorem claim_C6_amended_thm (content_dir : String) (cfg : Config) (n : Int) (seg_ext : String)
    (v : VodInfo) (rest : List VodInfo)
    (hv : cfg.vod_infos = v :: rest) :
    (n < effStart cfg →
      media_segment_with_nr content_dir cfg n seg_ext =
        Except.ok (Response.errorResponse (tooEarlySegMsg n (effStart cfg)))) ∧
    (effStart cfg ≤ n →
      ∀ m : Int, cfg.last_segment_numbers.maximum = (m : WithBot Int) → m < n →
        ∃ vl, cfg.last_segment_numbers.getLast? = some vl ∧
          media_segment_with_nr content_dir cfg n seg_ext =
            Except.ok (Response.errorResponse (beyondLastMsg n vl))) := by
  constructor
  · intro hlt
    unfold media_segment_with_nr
    rw [hv]
    simp only [exceptHead_cons, ebind_ok, if_pos hlt, epure]
  · intro hge m hmax hmn
    have hne : cfg.last_segment_numbers ≠ [] := by
      intro h
      rw [h, List.maximum_nil] at hmax
      exact (by simp : (⊥ : WithBot Int) ≠ (m : WithBot Int)) hmax
    obtain ⟨vl, hvl⟩ : ∃ vl, cfg.last_segment_numbers.getLast? = some vl := by
      cases hgl : cfg.last_segment_numbers.getLast? with
      | none => exact absurd (List.getLast?_eq_none_iff.mp hgl) hne
      | some vl => exact ⟨vl, rfl⟩
    have hvlm : vl ≤ m :=
      List.le_maximum_of_mem (List.mem_of_getLast?_eq_some hvl) hmax
    have hgt : n > vl := by omega
    refine ⟨vl, hvl, ?_⟩
    unfold media_segment_with_nr
    rw [hv]
    simp only [exceptHead_cons, ebind_ok, epure, if_neg (not_lt.mpr hge), hvl, if_pos hgt]

/-- Claim C6 witness: the amended theorem at the base configuration with
terminal set [11], requested segment number 15 > 11 yielding
BeyondLastSegment, instantiating the second part. -/
theorem claim_C6_witness :
    ((15 : Int) < effStart cfgC6w →
      media_segment_with_nr "content" cfgC6w 15 ".m4s" =
        Except.ok (Response.errorResponse (tooEarlySegMsg 15 (effStart cfgC6w)))) ∧
    (effStart cfgC6w ≤ 15 →
      ∀ m : Int, cfgC6w.last_segment_numbers.maximum = (m : WithBot Int) → m < 15 →
        ∃ vl, cfgC6w.last_segment_numbers.getLast? = some vl ∧
          media_segment_with_nr "content" cfgC6w 15 ".m4s" =
            Except.ok (Response.errorResponse (beyondLastMsg 15 vl))) :=
  claim_C6_amended_thm "content" cfgC6w 15 ".m4s" baseAsset [] rfl

/-- Claim C7: the fault-injection gate for an up/down window uA_dB with
cycle A+B works on phase = now mod 60 (fixed modulus 60, not the cycle),
repeats the cycle ceil(60/(A+B)) times within the minute, and replaces
the response by the synthetic server-down error exactly when the phase
falls inside a down sub-interval (i*(A+B)+A, (i+1)*(A+B)] of some
repetition i; otherwise the media response passes through unchanged.
Instantiated at "u10_d5" this yields FaultInjected at phase 12 and
normal success at phase 5. -/
theorem claim_C7_thm (content_dir : String) (cfg : Config) (now : Int)
    (mu a_var b_var : String) (A B : Int) (sc : SegContent)
    (hmu : cfg.multi_url = [mu])
    (hsplit : splitChar '_' mu = [a_var, b_var])
    (hA : pyInt (pyDrop1 a_var) = Except.ok A)
    (hB : pyInt (pyDrop1 b_var) = Except.ok B)
    (hau : pyFirstChar a_var = Except.ok 'u')
    (hbd : pyFirstChar b_var = Except.ok 'd')
    (hAB : 0 < A + B)
    (hgate : media_gate cfg now = Except.ok none)
    (hproc : process_media_segment content_dir cfg now = Except.ok (Response.media sc)) :
    (m4s_branch content_dir cfg now =
        Except.ok (Response.errorResponse (serverDownMsg now)) ↔
      ∃ i : Nat, (i : Int) < ceilD 60 (A + B) ∧
        (i : Int) * (A + B) + A < now % 60 ∧ now % 60 ≤ ((i : Int) + 1) * (A + B)) ∧
    ((¬ ∃ i : Nat, (i : Int) < ceilD 60 (A + B) ∧
        (i : Int) * (A + B) + A < now % 60 ∧ now % 60 ≤ ((i : Int) + 1) * (A + B)) →
      m4s_branch content_dir cfg now = Except.ok (Response.media sc)) := by
  have hABne : A + B ≠ 0 := by omega
  have hred : m4s_branch content_dir cfg now =
      (if (List.range (ceilD 60 (A + B)).toNat).any (fun i =>
           decide ((i : Int) * (A + B) + A < now % 60 ∧
                   now % 60 ≤ ((i : Int) + 1) * (A + B))) = true then
        Except.ok (Response.errorResponse (serverDownMsg now))
      else Except.ok (Response.media sc)) := by
    unfold m4s_branch
    rw [hgate]
    simp only [ebind_ok]
    rw [hproc]
    simp only [ebind_ok]
    unfold apply_fault
    simp only [hmu]
    simp only [hsplit, ebind_ok, epure]
    simp only [hA, hB, ebind_ok]
    simp only [pyCeilDiv, hABne, if_false, ebind_ok]
    simp only [hau, ebind_ok]
    simp only [eq_self_iff_true, if_true]
    simp only [hbd, ebind_ok]
    simp only [eq_self_iff_true, if_true, epure]
  have hiff : (List.range (ceilD 60 (A + B)).toNat).any (fun i =>
        decide ((i : Int) * (A + B) + A < now % 60 ∧
                now % 60 ≤ ((i : Int) + 1) * (A + B))) = true ↔
      (∃ i : Nat, (i : Int) < ceilD 60 (A + B) ∧
        (i : Int) * (A + B) + A < now % 60 ∧ now % 60 ≤ ((i : Int) + 1) * (A + B)) := by
    rw [List.any_eq_true]
    constructor
    · rintro ⟨i, hmem, hp⟩
      rw [List.mem_range] at hmem
      obtain ⟨h1, h2⟩ := of_decide_eq_true hp
      exact ⟨i, Int.lt_toNat.mp hmem, h1, h2⟩
    · rintro ⟨i, hlt, h1, h2⟩
      exact ⟨i, List.mem_range.mpr (Int.lt_toNat.mpr hlt), decide_eq_true ⟨h1, h2⟩⟩
  rw [hred]
  by_cases hany : (List.range (ceilD 60 (A + B)).toNat).any (fun i =>
      decide ((i : Int) * (A + B) + A < now % 60 ∧
              now % 60 ≤ ((i : Int) + 1) * (A + B))) = true
  · rw [if_pos hany]
    exact ⟨⟨fun _ => hiff.mp hany, fun _ => rfl⟩, fun hno => absurd (hiff.mp hany) hno⟩
  · rw [if_neg hany]
    exact ⟨⟨fun h => absurd h (by simp), fun hex => absurd (hiff.mpr hex) hany⟩,
      fun _ => rfl⟩

/-- Claim C7 witness: the theorem applied to the u10_d5 window at
now = 12 (phase 12 lies in the first down sub-interval (10, 15]), giving
the server-down error. -/
theorem claim_C7_witness :
    m4s_branch "content" cfgC7 12 =
      Except.ok (Response.errorResponse (serverDownMsg 12)) :=
  (claim_C7_thm "content" cfgC7 12 "u10_d5" "u10" "d5" 10 5
    (SegContent.single
      { media_seg_file := "content/testpic/A1/3.m4s", vod_nr := 3, seg_nr := 3,
        seg_duration := 4, offset_at_loop_start := 0, lmsg := false,
        timescale := 90000, scte35_per_minute := 0, rel_path := "A1",
        is_ttml := false })
    rfl rfl rfl rfl rfl rfl (by decide) rfl rfl).1.mpr
    ⟨0, by decide, by decide, by decide⟩

/-- Claim C8 (code bug): when the catalog's wrap durations sum to zero,
handling a request does NOT surface a tagged error result: the
divmod(diff, total) of sort_by_period raises an uncaught
ZeroDivisionError that propagates past the core boundary, for every
extension, content directory and wall-clock instant. -/
theorem claim_C8_thm (content_dir : String) (cfg : Config) (now : Int)
    (h : sumWraps cfg.vod_infos = 0) :
    parse_url content_dir cfg now = Except.error PyExc.zeroDivision := by
  unfold parse_url sort_by_period pydivmod
  simp only [h, eq_self_iff_true, if_true, ebind_err]

/-- Claim C8 witness: the zero-total configuration at now = 7. -/
theorem claim_C8_witness :
    sumWraps cfgC8.vod_infos = 0 ∧
    parse_url "content" cfgC8 7 = Except.error PyExc.zeroDivision :=
  ⟨rfl, claim_C8_thm "content" cfgC8 7 rfl⟩

/-- Claim C9 counterexample: with three configured representations the
media-segment path does not return a configuration error: it proceeds and
issues two byte-rewrite calls (using the first two representations). -/
theorem claim_C9_counterexample :
    cfgC9.reps.length = 3 ∧
    (media_segment_with_nr "content" cfgC9 3 ".m4s").map (fun r => (segCalls r).length) =
      Except.ok 2 ∧
    isMediaResp (media_segment_with_nr "content" cfgC9 3 ".m4s") = true :=
  ⟨rfl, rfl, rfl⟩

/-- Claim C9 (amended): on the init path, one representation gives one
rewrite call, two give a muxed pair, and any other count is the fatal
configuration error; but on the media path only the one-representation
case is special: any other count takes the two-representation branch, so
three or more representations issue two calls (first two representations)
with no error, and zero representations crash with an IndexError rather
than returning the configuration error. -/
theorem claim_C9_amended_thm (content_dir : String) (cfg : Config) (n : Int) (seg_ext : String)
    (v : VodInfo) (rest : List VodInfo) (md0 : Int) (mdr : List Int)
    (hv : cfg.vod_infos = v :: rest)
    (hmd : cfg.initial_durations = md0 :: mdr)
    (hD : v.seg_duration ≠ 0)
    (hL0 : cfg.loop_duration ≠ 0)
    (heff : effStart cfg ≤ n)
    (hterm : ∀ m, cfg.last_segment_numbers.getLast? = some m → n ≤ m)
    (hf : cfg.filenames ≠ []) :
    (cfg.reps.length = 1 →
      (∃ p, process_init_segment content_dir cfg =
         Except.ok (Response.initSeg (InitContent.single p))) ∧
      (∃ c, media_segment_with_nr content_dir cfg n seg_ext =
         Except.ok (Response.media (SegContent.single c)))) ∧
    (cfg.reps.length = 2 →
      (∃ p1 p2, process_init_segment content_dir cfg =
         Except.ok (Response.initSeg (InitContent.muxed p1 p2))) ∧
      (∃ c1 c2, media_segment_with_nr content_dir cfg n seg_ext =
         Except.ok (Response.media (SegContent.muxed c1 c2)))) ∧
    (cfg.reps.length ≠ 1 → cfg.reps.length ≠ 2 →
      process_init_segment content_dir cfg =
        Except.ok (Response.errorResponse (badRepsMsg cfg.reps.length))) ∧
    (cfg.reps = [] →
      media_segment_with_nr content_dir cfg n seg_ext = Except.error PyExc.indexError) ∧
    (3 ≤ cfg.reps.length →
      ∃ c1 c2, media_segment_with_nr content_dir cfg n seg_ext =
        Except.ok (Response.media (SegContent.muxed c1 c2))) := by
  have hms := media_segment_success content_dir cfg n seg_ext v rest md0 mdr hv hmd hD hL0
    heff hterm
  obtain ⟨f0, fs, hfl⟩ : ∃ f0 fs, cfg.filenames = f0 :: fs := by
    cases hc : cfg.filenames with
    | nil => exact absurd hc hf
    | cons a b => exact ⟨a, b, rfl⟩
  refine ⟨?_, ?_, ?_, hms.1, ?_⟩
  · intro h1
    obtain ⟨r0, hr⟩ := List.length_eq_one.mp h1
    constructor
    · unfold process_init_segment
      rw [hr, hfl]
      simp only [List.length_singleton, eq_self_iff_true, if_true, exceptHead_cons,
        ebind_ok, epure]
      exact ⟨_, rfl⟩
    · obtain ⟨c, hc, -, -⟩ := hms.2.1 r0 hr
      exact ⟨c, hc⟩
  · intro h2
    obtain ⟨r0, r1, hr⟩ := List.length_eq_two.mp h2
    constructor
    · unfold process_init_segment
      rw [hr, hfl]
      simp only [List.length_cons, List.length_singleton, exceptHead_cons, ebind_ok,
        epure, exceptNth_zero, exceptNth_one]
      norm_num
    · obtain ⟨c1, c2, hc, -, -, -, -⟩ := hms.2.2 r0 r1 [] hr
      exact ⟨c1, c2, hc⟩
  · intro h1 h2
    unfold process_init_segment
    rw [if_neg h1, if_neg h2]
    rfl
  · intro h3
    obtain ⟨r0, r1, rs, hr⟩ : ∃ r0 r1 rs, cfg.reps = r0 :: r1 :: rs := by
      cases hc : cfg.reps with
      | nil =>
        rw [hc] at h3
        simp at h3
      | cons a t =>
        cases hct : t with
        | nil =>
          rw [hc, hct] at h3
          simp at h3
        | cons b u => exact ⟨a, b, u, rfl⟩
    obtain ⟨c1, c2, hc, -, -, -, -⟩ := hms.2.2 r0 r1 rs hr
    exact ⟨c1, c2, hc⟩

/-- Claim C9 witness: the amended theorem at the two-representation
configuration, requested segment number 3. -/
theorem claim_C9_witness :
    (cfgC9w.reps.length = 1 →
      (∃ p, process_init_segment "content" cfgC9w =
         Except.ok (Response.initSeg (InitContent.single p))) ∧
      (∃ c, media_segment_with_nr "content" cfgC9w 3 ".m4s" =
         Except.ok (Response.media (SegContent.single c)))) ∧
    (cfgC9w.reps.length = 2 →
      (∃ p1 p2, process_init_segment "content" cfgC9w =
         Except.ok (Response.initSeg (InitContent.muxed p1 p2))) ∧
      (∃ c1 c2, media_segment_with_nr "content" cfgC9w 3 ".m4s" =
         Except.ok (Response.media (SegContent.muxed c1 c2)))) ∧
    (cfgC9w.reps.length ≠ 1 → cfgC9w.reps.length ≠ 2 →
      process_init_segment "content" cfgC9w =
        Except.ok (Response.errorResponse (badRepsMsg cfgC9w.reps.length))) ∧
    (cfgC9w.reps = [] →
      media_segment_with_nr "content" cfgC9w 3 ".m4s" = Except.error PyExc.indexError) ∧
    (3 ≤ cfgC9w.reps.length →
      ∃ c1 c2, media_segment_with_nr "content" cfgC9w 3 ".m4s" =
        Except.ok (Response.media (SegContent.muxed c1 c2))) :=
  claim_C9_amended_thm "content" cfgC9w 3 ".m4s" baseAsset [] 40 [] rfl rfl
    (by decide) (by decide) (by decide)
    (by
      intro m hm
      simp [cfgC9w, baseCfg] at hm)
    (by decide)

/-- Claim C10: loop periodicity.  For a single-asset catalog with wrap
duration W = k * D (segment duration D > 0, W > 0, loop duration W as the
spec derives it for one asset), mapping any accepted segment number n and
n + k yields byte-rewrite calls with the same local (VoD-relative)
segment numbers and offsets at loop start differing by exactly W. -/
theorem claim_C10_thm (content_dir : String) (cfg : Config) (n k : Int)
    (v : VodInfo) (seg_ext : String) (md0 : Int) (mdr : List Int)
    (hv : cfg.vod_infos = [v])
    (hmd : cfg.initial_durations = md0 :: mdr)
    (hD : 0 < v.seg_duration)
    (hW : 0 < v.wrap_seconds)
    (hk : v.wrap_seconds = k * v.seg_duration)
    (hL : cfg.loop_duration = v.wrap_seconds)
    (heff : effStart cfg ≤ n)
    (hterm : cfg.last_segment_numbers = [])
    (hreps : cfg.reps ≠ []) :
    ∃ r1 r2, media_segment_with_nr content_dir cfg n seg_ext = Except.ok r1 ∧
      media_segment_with_nr content_dir cfg (n + k) seg_ext = Except.ok r2 ∧
      segCalls r1 ≠ [] ∧
      (segCalls r1).map RewriteCall.vod_nr = (segCalls r2).map RewriteCall.vod_nr ∧
      (segCalls r2).map RewriteCall.offset_at_loop_start =
        (segCalls r1).map (fun c => c.offset_at_loop_start + v.wrap_seconds) := by
  have hkpos : 0 < k := by nlinarith
  have htrm : ∀ m, cfg.last_segment_numbers.getLast? = some m → n ≤ m := by
    rw [hterm]
    intro m hm
    exact absurd hm (by simp)
  have htrm2 : ∀ m, cfg.last_segment_numbers.getLast? = some m → n + k ≤ m := by
    rw [hterm]
    intro m hm
    exact absurd hm (by simp)
  have hms1 := media_segment_success content_dir cfg n seg_ext v [] md0 mdr hv hmd
    (ne_of_gt hD) (by omega) heff htrm
  have hms2 := media_segment_success content_dir cfg (n + k) seg_ext v [] md0 mdr hv hmd
    (ne_of_gt hD) (by omega) (by omega) htrm2
  have hdiff : (n + k - effStart cfg) * v.seg_duration =
      (n - effStart cfg) * v.seg_duration + 1 * v.wrap_seconds := by
    rw [hk]
    ring
  have htime : codeTime cfg v (n + k) = codeTime cfg v n := by
    unfold codeTime
    rw [hdiff, hL, Int.fmod_eq_emod _ (le_of_lt hW), Int.fmod_eq_emod _ (le_of_lt hW),
      Int.add_mul_emod_self]
  have hloops : codeLoops cfg v (n + k) = codeLoops cfg v n + 1 := by
    unfold codeLoops
    rw [hdiff, hL, Int.fdiv_eq_ediv _ (le_of_lt hW), Int.fdiv_eq_ediv _ (le_of_lt hW),
      Int.add_mul_ediv_right _ _ (ne_of_gt hW)]
  have hlast : codeLast cfg v (n + k) md0 = codeLast cfg v n md0 := by
    unfold codeLast
    rw [htime]
  have hvodnr : codeVodNr cfg v (n + k) md0 = codeVodNr cfg v n md0 := by
    unfold codeVodNr
    rw [htime, hlast]
  have hoffs : codeOffset cfg v (n + k) md0 = codeOffset cfg v n md0 + v.wrap_seconds := by
    unfold codeOffset
    rw [hloops, hlast, hL]
    ring
  cases hcr : cfg.reps with
  | nil => exact absurd hcr hreps
  | cons r0 rs =>
    cases rs with
    | nil =>
      obtain ⟨c1, hc1, hf1, -⟩ := hms1.2.1 r0 hcr
      obtain ⟨c2, hc2, hf2, -⟩ := hms2.2.1 r0 hcr
      refine ⟨_, _, hc1, hc2, by simp [segCalls], ?_, ?_⟩
      · simp only [segCalls, List.map_cons, List.map_nil]
        rw [hf1.2.2.2.1, hf2.2.2.2.1, hvodnr]
      · simp only [segCalls, List.map_cons, List.map_nil]
        rw [hf1.2.2.2.2, hf2.2.2.2.2, hoffs]
    | cons r1 rs2 =>
      obtain ⟨c1, c2, hc1, hf1, hf2, -, -⟩ := hms1.2.2 r0 r1 rs2 hcr
      obtain ⟨d1, d2, hc2, hg1, hg2, -, -⟩ := hms2.2.2 r0 r1 rs2 hcr
      refine ⟨_, _, hc1, hc2, by simp [segCalls], ?_, ?_⟩
      · simp only [segCalls, List.map_cons, List.map_nil]
        rw [hf1.2.2.2.1, hf2.2.2.2.1, hg1.2.2.2.1, hg2.2.2.2.1, hvodnr]
      · simp only [segCalls, List.map_cons, List.map_nil]
        rw [hf1.2.2.2.2, hf2.2.2.2.2, hg1.2.2.2.2, hg2.2.2.2.2, hoffs]

/-- Claim C10 witness: the base single-asset configuration (W = 40,
D = 4, k = 10) at n = 3 and n + 10. -/
theorem claim_C10_witness :
    ∃ r1 r2, media_segment_with_nr "content" cfgC10 3 ".m4s" = Except.ok r1 ∧
      media_segment_with_nr "content" cfgC10 (3 + 10) ".m4s" = Except.ok r2 ∧
      segCalls r1 ≠ [] ∧
      (segCalls r1).map RewriteCall.vod_nr = (segCalls r2).map RewriteCall.vod_nr ∧
      (segCalls r2).map RewriteCall.offset_at_loop_start =
        (segCalls r1).map (fun c => c.offset_at_loop_start + baseAsset.wrap_seconds) :=
  claim_C10_thm "content" cfgC10 3 10 baseAsset ".m4s" 40 [] rfl rfl (by decide)
    (by decide) (by decide) rfl (by decide) rfl (by decide)

end DashProxy
